import Mathlib

/-!
Shallow embedding of the Twelvety serverless handlers:
the markdown validator (`POST /api/validate`), the build dispatcher
(`POST /api/build`) and the build status reconciler
(`GET /api/build/{buildId}/status`).

External collaborators (DynamoDB, the GitHub REST API, gray-matter,
ajv, markdown-it, uuid, the clock) are modelled as explicit "world"
records of deterministic functions / results supplied to each handler;
a call that may throw is modelled with `Except String` carrying the
thrown error message.  JavaScript truthiness on optional strings
(`undefined` or `""` are falsy) is made explicit via `jsTruthy`.
-/

namespace Twelvety

/-- JavaScript truthiness of an optional string value:
`undefined`/absent and `""` are falsy, every other string is truthy. -/
def jsTruthy : Option String → Bool
  | none => false
  | some s => s != ""

/-- JavaScript `a || b` on optional string values. -/
def jsOr (a b : Option String) : Option String :=
  if jsTruthy a then a else b

/-- JavaScript `a || d` where the fallback `d` is a plain string,
as in `buildData.status || 'queued'`. -/
def jsOrD (a : Option String) (d : String) : String :=
  match a with
  | none => d
  | some s => if s == "" then d else s

/-- JavaScript template-literal interpolation of a possibly-undefined
string value: `undefined` prints as the string `"undefined"`. -/
def optStr (a : Option String) : String :=
  a.getD "undefined"

/-! ## Data model -/

/-- A stored build record, one DynamoDB item per submitted document.
Every attribute except the primary key may be absent on an arbitrary
item, so each is an `Option`. -/
structure BuildRecord where
  buildId : String
  projectId : Option String := none
  status : Option String := none
  title : Option String := none
  slug : Option String := none
  createdAt : Option String := none
  authorEmail : Option String := none
  fileSize : Option Nat := none
  deriving Repr, DecidableEq

/-- A GitHub Actions workflow run as read from
`actions.listWorkflowRunsForRepo` (external, read-only). -/
structure WorkflowRun where
  head_branch : String
  status : String
  conclusion : Option String
  html_url : String
  deriving Repr, DecidableEq

/-! ## Status reconciler (`GET /api/build/{buildId}/status`) -/

/-- Environment variables consumed by the status handler. -/
structure StatusEnv where
  awsDynamodbTable : Option String := none
  githubOrg : Option String := none
  githubOwner : Option String := none
  githubRepo : Option String := none
  siteUrl : Option String := none
  serviceUrl : Option String := none
  awsBucketName : Option String := none

/-- The external world seen by one invocation of the status handler:
the DynamoDB `get` outcome per key (an `Except` error is a thrown and
caught exception, `none` an absent item) and the workflow-run listing
outcome. -/
structure StatusWorld where
  dbGet : String → Except String (Option BuildRecord)
  listWorkflowRuns : Except String (List WorkflowRun)

/-- Incoming event for the status handler. -/
structure StatusEvent where
  httpMethod : String
  path : String

/-- The JSON body of a successful (200) status response. -/
structure StatusBody where
  buildId : String
  projectId : Option String
  status : String
  title : Option String
  slug : Option String
  createdAt : Option String
  authorEmail : Option String
  fileSize : Option Nat
  workflowStatus : String
  workflowConclusion : Option String
  workflowUrl : Option String
  siteUrl : Option String
  downloadUrl : Option String
  archiveUrl : Option String
  deriving Repr, DecidableEq

/-- Outcome of the status handler, one constructor per response shape. -/
inductive StatusOutcome where
  /-- 200 empty body for the OPTIONS preflight. -/
  | preflight
  /-- An error response: status code and `error` message field. -/
  | error (code : Nat) (msg : String)
  /-- The 200 response. -/
  | success (body : StatusBody)
  deriving Repr, DecidableEq

/-- A DynamoDB operation performed during a handler invocation,
recorded so that read-only behaviour is provable. -/
inductive StoreOp where
  | get (key : String)
  | put (key : String) (item : BuildRecord)
  deriving Repr, DecidableEq

/-- Whether a store operation is a read. -/
def StoreOp.isGet : StoreOp → Bool
  | .get _ => true
  | .put _ _ => false

/-- Replay a list of store operations against a store snapshot:
`get` leaves it unchanged, `put` overwrites the item at the key. -/
def applyOps : List StoreOp → (String → Option BuildRecord) → (String → Option BuildRecord)
  | [], store => store
  | .get _ :: rest, store => applyOps rest store
  | .put k item :: rest, store =>
      applyOps rest (fun key => if key = k then some item else store key)

/-- JavaScript `String.prototype.split` at every character satisfying
`p`: splits a character list at each separator character, keeping the
empty pieces between adjacent separators (so that
`jsSplit p [] = [[]]`, matching `''.split(sep) === ['']`). -/
def jsSplit (p : Char → Bool) : List Char → List (List Char)
  | [] => [[]]
  | x :: xs =>
    match jsSplit p xs, p x with
    | r, true => [] :: r
    | [], false => [[x]]
    | h :: t, false => (x :: h) :: t

/-- `event.path.split('/').filter(p => p).pop()`: the last truthy
(i.e. non-empty) `/`-separated segment of the request path. -/
def extractBuildId (path : String) : Option String :=
  (((jsSplit (fun c => c == '/') path.toList).map
    (fun l => String.mk l)).filter (fun p => p != "")).getLast?

/-- The DynamoDB lookup of the status handler: skipped when no table
is configured, and a thrown error is caught (warn-logged), leaving
`buildData = null`. -/
def lookupRecord (env : StatusEnv) (w : StatusWorld) (buildId : String) :
    Option BuildRecord :=
  if jsTruthy env.awsDynamodbTable then
    match w.dbGet buildId with
    | .ok item => item
    | .error _ => none
  else none

/-- The store operations issued by the status handler once a buildId
has been extracted: at most the single conditional `get`. -/
def statusLookupOps (env : StatusEnv) (buildId : String) : List StoreOp :=
  if jsTruthy env.awsDynamodbTable then [StoreOp.get buildId] else []

/-- The workflow run matched to a build: when owner and repo are
configured and the listing succeeds, the first listed run whose
`head_branch` equals `build/{buildId}`; otherwise no match (a thrown
listing error is caught and warn-logged). -/
def matchedRun (env : StatusEnv) (w : StatusWorld) (buildId : String) :
    Option WorkflowRun :=
  if jsTruthy (jsOr env.githubOrg env.githubOwner) && jsTruthy env.githubRepo then
    match w.listWorkflowRuns with
    | .ok runs => runs.find? (fun r => r.head_branch == "build/" ++ buildId)
    | .error _ => none
  else none

/-- The `workflowStatus` / `workflowConclusion` / `workflowUrl` triple:
initialised to `("unknown", null, null)` and overwritten from the
matched run when one is found. -/
def workflowInfo (env : StatusEnv) (w : StatusWorld) (buildId : String) :
    String × Option String × Option String :=
  match matchedRun env w buildId with
  | some run => (run.status, run.conclusion, some run.html_url)
  | none => ("unknown", none, none)

/-- The body of the status handler after buildId extraction:
lookup, workflow cross-reference, final-status reconciliation and URL
composition, paired with the store operations performed. -/
def statusCore (env : StatusEnv) (w : StatusWorld) (buildId : String) :
    StatusOutcome × List StoreOp :=
  let ops := statusLookupOps env buildId
  match lookupRecord env w buildId with
  | none => (.error 404 "Build not found", ops)
  | some buildData =>
    let wf := workflowInfo env w buildId
    let finalStatus :=
      if wf.1 == "completed" then
        if wf.2.1 == some "success" then "completed" else "failed"
      else if wf.1 == "in_progress" then "building"
      else jsOrD buildData.status "queued"
    let siteUrl :=
      if jsTruthy env.siteUrl then
        some (optStr env.siteUrl ++ "/" ++ optStr buildData.projectId ++ "/")
      else none
    let downloadUrl :=
      if jsTruthy env.serviceUrl then
        some (optStr env.serviceUrl ++ "/download/" ++ buildId)
      else none
    let archiveUrl :=
      if jsTruthy env.awsBucketName then
        some ("s3://" ++ optStr env.awsBucketName ++ "/archives/" ++
          optStr buildData.projectId ++ "/" ++ buildId ++ "/")
      else none
    (.success {
      buildId := buildId
      projectId := buildData.projectId
      status := finalStatus
      title := buildData.title
      slug := buildData.slug
      createdAt := buildData.createdAt
      authorEmail := buildData.authorEmail
      fileSize := buildData.fileSize
      workflowStatus := wf.1
      workflowConclusion := wf.2.1
      workflowUrl := wf.2.2
      siteUrl := siteUrl
      downloadUrl := downloadUrl
      archiveUrl := archiveUrl }, ops)

/-- The full status handler: method dispatch, buildId extraction, then
`statusCore`.  Returns the response outcome together with the list of
DynamoDB operations performed during the invocation. -/
def buildStatusRun (env : StatusEnv) (w : StatusWorld) (event : StatusEvent) :
    StatusOutcome × List StoreOp :=
  if event.httpMethod == "OPTIONS" then (.preflight, [])
  else if event.httpMethod != "GET" then (.error 405 "Method not allowed", [])
  else
    match extractBuildId event.path with
    | none => (.error 400 "Build ID required", [])
    | some buildId => statusCore env w buildId

/-- The response outcome of the status handler. -/
def buildStatusOutcome (env : StatusEnv) (w : StatusWorld) (event : StatusEvent) :
    StatusOutcome :=
  (buildStatusRun env w event).1

/-! ## Build dispatcher (`POST /api/build`) -/

/-- Environment variables consumed by the build handler. -/
structure BuildEnv where
  awsDynamodbTable : Option String := none
  githubOrg : Option String := none
  githubOwner : Option String := none
  githubRepo : Option String := none
  serviceUrl : Option String := none

/-- The `metadata` object of a build request; each property may be
absent. -/
structure BuildMeta where
  slug : Option String := none
  title : Option String := none
  author : Option String := none
  authorName : Option String := none
  deriving Repr, DecidableEq

/-- The parsed JSON body of a build request. -/
structure BuildRequest where
  markdown : Option String := none
  projectId : Option String := none
  metadata : Option BuildMeta := none
  deriving Repr, DecidableEq

/-- Incoming event for the build handler.  `body = none` models a
request body that `JSON.parse` rejects (the throw reaches the outer
catch).  `host` is `event.headers.host`, possibly absent. -/
structure BuildEvent where
  httpMethod : String
  body : Option BuildRequest
  host : Option String := none

/-- The external world seen by one invocation of the build handler:
the fresh uuid, the clock, and the outcome of each third-party call
(`Except.error` is a thrown exception carrying its message).
`putFile` receives the sha of the pre-existing file, when one was
found, since `createOrUpdateFileContents` is called with that sha. -/
structure BuildWorld where
  uuid : String
  now : String
  dbPut : Except String Unit
  getRef : Except String String
  createRef : Except String Unit
  getContent : Except String String
  putFile : Option String → Except String Unit
  dispatchWorkflow : Except String Unit

/-- The JSON body of the 202 response of the build handler. -/
structure BuildResponseBody where
  status : String
  buildId : String
  projectId : String
  branchName : String
  filePath : String
  estimatedTime : Nat
  pollingUrl : String
  title : String
  slug : String
  createdAt : String
  deriving Repr, DecidableEq

/-- Outcome of the build handler. -/
inductive BuildOutcome where
  /-- 200 empty body for the OPTIONS preflight. -/
  | preflight
  /-- An error response: status code and message (for a 500 the
  message is the thrown error's message). -/
  | error (code : Nat) (msg : String)
  /-- The 202 response. -/
  | accepted (body : BuildResponseBody)
  deriving Repr, DecidableEq

/-- The build handler.  The DynamoDB `put` (when a table is
configured) and the explicit workflow dispatch are best-effort calls
whose thrown errors are caught and logged, so their results never
influence the response; `getRef`, `createRef` and `putFile` throws
propagate to the outer catch and become 500 responses; a `getContent`
throw is caught and treated as "file does not exist". -/
def buildHandler (env : BuildEnv) (w : BuildWorld) (event : BuildEvent) :
    BuildOutcome :=
  if event.httpMethod == "OPTIONS" then .preflight
  else if event.httpMethod != "POST" then .error 405 "Method not allowed"
  else
    match event.body with
    | none => .error 500 "Unexpected token in JSON"
    | some req =>
      if !(jsTruthy req.markdown && jsTruthy req.projectId) then
        .error 400 "Missing required fields: markdown, projectId"
      else
        let buildId := w.uuid
        let branchName := "build/" ++ buildId
        let timestamp := w.now
        let slug := jsOrD (req.metadata.bind BuildMeta.slug) "index"
        let title := jsOrD (req.metadata.bind BuildMeta.title) "Untitled"
        let projectId := req.projectId.getD ""
        -- DynamoDB put: performed only when a table is configured, and
        -- a failure is caught and logged ("Continue anyway"), so the
        -- result w.dbPut is not consulted by the rest of the handler.
        let owner := jsOr env.githubOrg env.githubOwner
        if !(jsTruthy owner && jsTruthy env.githubRepo) then
          .error 500 "GitHub configuration missing: GITHUB_ORG and GITHUB_REPO required"
        else
          match w.getRef with
          | .error m => .error 500 m
          | .ok _sha =>
            match w.createRef with
            | .error m => .error 500 m
            | .ok _ =>
              let filePath := "content/" ++ projectId ++ "/" ++ slug ++ ".md"
              let existingSha :=
                match w.getContent with
                | .ok sha => some sha
                | .error _ => none
              match w.putFile existingSha with
              | .error m => .error 500 m
              | .ok _ =>
                -- workflow dispatch: try/catch, failure only logged.
                let serviceUrl := jsOrD env.serviceUrl ("https://" ++ optStr event.host)
                .accepted {
                  status := "queued"
                  buildId := buildId
                  projectId := projectId
                  branchName := branchName
                  filePath := filePath
                  estimatedTime := 5
                  pollingUrl := serviceUrl ++ "/api/build/" ++ buildId ++ "/status"
                  title := title
                  slug := slug
                  createdAt := timestamp }

/-! ## Validator (`POST /api/validate`) -/

/-- A parsed frontmatter object, abstracted as a list of key/value
pairs (its internal shape is irrelevant to the handler, which only
passes it through to ajv and echoes it back). -/
def Fm : Type := List (String × String)

instance : DecidableEq Fm := by
  unfold Fm
  infer_instance

instance : Repr Fm := by
  unfold Fm
  infer_instance

/-- One entry of `validate.errors` as produced by ajv: an instance
path (possibly empty), a schema path, a message, the failing keyword
and that keyword's parameters (abstracted as key/value pairs). -/
structure AjvError where
  instancePath : String
  schemaPath : String
  message : String
  keyword : String
  params : List (String × String)
  deriving Repr, DecidableEq

/-- One entry of the validator's 422 `errors` array for a schema
violation, as mapped from an `AjvError` by the handler. -/
structure MappedError where
  path : String
  message : String
  keyword : String
  params : List (String × String)
  deriving Repr, DecidableEq

/-- `validate.errors.map(...)` of the handler: keep message, keyword
and params, and use the instance path, falling back to the schema path
when the instance path is empty (falsy). -/
def mapAjvError (e : AjvError) : MappedError :=
  { path := if e.instancePath != "" then e.instancePath else e.schemaPath
    message := e.message
    keyword := e.keyword
    params := e.params }

/-- The single 422 error entry reported for malformed frontmatter. -/
structure FrontmatterError where
  path : String
  message : String
  line : Nat
  details : String
  deriving Repr, DecidableEq

/-- The external world seen by one invocation of the validator:
gray-matter parsing (throwing on malformed frontmatter), schema
fetch-and-parse (throwing on network/HTTP/JSON failure), ajv compile
(throwing on a malformed schema; on success yielding a checker that
returns `none` for valid data and the full error list otherwise,
since ajv is configured with `allErrors: true`), and markdown-it
rendering. -/
structure ValidateWorld where
  matter : String → Except String (Fm × String)
  fetchSchema : String → Except String String
  compile : String → Except String (Fm → Option (List AjvError))
  render : String → String

/-- The parsed JSON body of a validate request. -/
structure ValidateRequest where
  markdown : Option String := none
  schemaUrl : Option String := none

/-- Incoming event for the validator.  `body = none` models a request
body rejected by `JSON.parse` (the throw reaches the outer catch). -/
structure ValidateEvent where
  httpMethod : String
  body : Option ValidateRequest

/-- The `metadata` object of a successful validation response. -/
structure ContentMetadata where
  wordCount : Nat
  readingTime : Nat
  contentLength : Nat
  hasImages : Bool
  hasCode : Bool
  deriving Repr, DecidableEq

/-- The JSON body of a successful (200) validation response. -/
structure ValidBody where
  frontmatter : Fm
  content : String
  preview : String
  metadata : ContentMetadata
  deriving Repr, DecidableEq

/-- Outcome of the validator, one constructor per response shape. -/
inductive ValidateOutcome where
  /-- 200 empty body for the OPTIONS preflight. -/
  | preflight
  /-- 405 Method not allowed. -/
  | methodNotAllowed
  /-- 400 Missing markdown content. -/
  | missingMarkdown
  /-- 422 `status:"invalid"` with the single frontmatter-syntax error. -/
  | frontmatterSyntax (err : FrontmatterError)
  /-- 400 Failed to fetch schema, with the thrown error's message. -/
  | schemaFetchFailed (details : String)
  /-- 422 `status:"invalid"` with the mapped ajv errors. -/
  | schemaInvalid (errors : List MappedError)
  /-- 200 `status:"valid"`. -/
  | valid (body : ValidBody)
  /-- 500 Internal server error, with the thrown error's message. -/
  | internalError (msg : String)
  deriving Repr, DecidableEq

/-- The HTTP status code of each validator outcome. -/
def ValidateOutcome.statusCode : ValidateOutcome → Nat
  | .preflight => 200
  | .methodNotAllowed => 405
  | .missingMarkdown => 400
  | .frontmatterSyntax _ => 422
  | .schemaFetchFailed _ => 400
  | .schemaInvalid _ => 422
  | .valid _ => 200
  | .internalError _ => 500

/-- `content.split(/\s+/).filter(w => w.length > 0)`: the non-empty
whitespace-delimited tokens of a string.  Splitting at every single
whitespace character and then dropping the empty pieces yields the
same token list as splitting at maximal whitespace runs and dropping
empty pieces. -/
def wordTokens (s : String) : List String :=
  (((jsSplit Char.isWhitespace s.toList).map
    (fun l => String.mk l)).filter (fun t => t != ""))

/-- Whether `pat` occurs as a contiguous run inside `l`. -/
def hasRun (pat : List Char) : List Char → Bool
  | [] => pat.isEmpty
  | c :: rest => pat.isPrefixOf (c :: rest) || hasRun pat rest

/-- Substring test, embedding a constant-pattern regex `test`. -/
def containsSub (s pat : String) : Bool :=
  hasRun pat.toList s.toList

/-- `Math.ceil(a / b)` on non-negative integers with `b > 0`. -/
def mathCeilDiv (a b : Nat) : Nat :=
  (a + b - 1) / b

/-- The tail of the validator after all schema checks have passed (or
were skipped because no `schemaUrl` was supplied): render the preview
and compute the content metrics. -/
def validSuccess (w : ValidateWorld) (frontmatter : Fm) (content : String) :
    ValidateOutcome :=
  .valid {
    frontmatter := frontmatter
    content := content
    preview := w.render content
    metadata := {
      wordCount := (wordTokens content).length
      readingTime := mathCeilDiv ((wordTokens content).length) 200
      contentLength := content.length
      hasImages := containsSub content "<img" || containsSub content "!["
      hasCode := containsSub content "```" } }

/-- The validator handler. -/
def validateHandler (w : ValidateWorld) (event : ValidateEvent) :
    ValidateOutcome :=
  if event.httpMethod == "OPTIONS" then .preflight
  else if event.httpMethod != "POST" then .methodNotAllowed
  else
    match event.body with
    | none => .internalError "Unexpected token in JSON"
    | some req =>
      if !jsTruthy req.markdown then .missingMarkdown
      else
        match w.matter (req.markdown.getD "") with
        | .error e =>
          .frontmatterSyntax
            { path := "frontmatter"
              message := "Invalid YAML frontmatter syntax"
              line := 1
              details := e }
        | .ok (frontmatter, content) =>
          if jsTruthy req.schemaUrl then
            match w.fetchSchema (req.schemaUrl.getD "") with
            | .error e => .schemaFetchFailed e
            | .ok schema =>
              match w.compile schema with
              | .error e => .internalError e
              | .ok validate =>
                match validate frontmatter with
                | some errs => .schemaInvalid (errs.map mapAjvError)
                | none => validSuccess w frontmatter content
          else validSuccess w frontmatter content

/-! ## Helper lemmas -/

/-- `a || d` with a string fallback agrees with `Option.getD` as long
as the present value is not the (falsy) empty string. -/
lemma jsOrD_eq_getD (o : Option String) (d : String) (h : o ≠ some "") :
    jsOrD o d = o.getD d := by
  cases o with
  | none => rfl
  | some s =>
    have hs : s ≠ "" := fun e => h (by rw [e])
    simp [jsOrD, Option.getD, hs]

/-- String append is left-cancellative. -/
lemma string_append_cancel {s a b : String} (h : s ++ a = s ++ b) : a = b := by
  have hd : s.data ++ a.data = s.data ++ b.data := by
    rw [← String.data_append, ← String.data_append, h]
  exact String.ext (List.append_cancel_left hd)

/-- The second component of `statusCore` is always exactly the
conditional lookup operation list. -/
lemma statusCore_snd (env : StatusEnv) (w : StatusWorld) (bid : String) :
    (statusCore env w bid).2 = statusLookupOps env bid := by
  unfold statusCore
  cases lookupRecord env w bid <;> rfl

/-- Replaying a list of read operations leaves the store unchanged. -/
lemma applyOps_of_reads (l : List StoreOp) (store : String → Option BuildRecord)
    (h : l.all StoreOp.isGet = true) : applyOps l store = store := by
  induction l generalizing store with
  | nil => rfl
  | cons op rest ih =>
    cases op with
    | get k =>
      simp only [List.all_cons, Bool.and_eq_true] at h
      exact ih store h.2
    | put k item =>
      simp only [List.all_cons, Bool.and_eq_true] at h
      exact absurd h.1 (by simp [StoreOp.isGet])

/-- `statusCore` never produces the 400 "Build ID required" error:
after a buildId was extracted, the only error left is the 404. -/
lemma statusCore_ne_badRequest (env : StatusEnv) (w : StatusWorld) (bid : String) :
    (statusCore env w bid).1 ≠ .error 400 "Build ID required" := by
  unfold statusCore
  cases lookupRecord env w bid with
  | none =>
    intro h
    injection h with h1 _
    exact absurd h1 (by decide)
  | some record =>
    intro h
    exact StatusOutcome.noConfusion h

/-! ## Concrete fixtures used by witnesses and counterexamples -/

/-- A workflow run on the branch of build `abc`, completed
successfully. -/
def runEx : WorkflowRun :=
  { head_branch := "build/abc"
    status := "completed"
    conclusion := some "success"
    html_url := "https://github.example/run/1" }

/-- A stored record for build `abc`, as the dispatcher writes it. -/
def recordEx : BuildRecord :=
  { buildId := "abc", projectId := some "proj", status := some "queued" }

/-- A status-handler environment with store and repository configured. -/
def statusEnvEx : StatusEnv :=
  { awsDynamodbTable := some "builds"
    githubOrg := some "acme"
    githubRepo := some "site" }

/-- A status-handler world holding `recordEx` and listing `runEx`. -/
def statusWorldEx : StatusWorld :=
  { dbGet := fun k => if k = "abc" then .ok (some recordEx) else .ok none
    listWorkflowRuns := .ok [runEx] }

/-- A status-handler world whose store holds no record at all, while
the workflow listing still contains a run matching branch
`build/abc`. -/
def statusWorldNoRecord : StatusWorld :=
  { dbGet := fun _ => .ok none
    listWorkflowRuns := .ok [runEx] }

/-- A GET status request whose path ends in build id `abc`. -/
def statusEventEx : StatusEvent :=
  { httpMethod := "GET", path := "/api/build/abc" }

/-- The response body the status handler derives for `statusEventEx`
against `statusEnvEx` and `statusWorldEx`. -/
def statusBodyEx : StatusBody :=
  { buildId := "abc"
    projectId := some "proj"
    status := "completed"
    title := none
    slug := none
    createdAt := none
    authorEmail := none
    fileSize := none
    workflowStatus := "completed"
    workflowConclusion := some "success"
    workflowUrl := some "https://github.example/run/1"
    siteUrl := none
    downloadUrl := none
    archiveUrl := none }

/-! ## C1 -/

/-- C1: for every status reconciliation in which the stored record
exists, the reported final status follows the reconciliation rule: a
matched run with status `completed` yields `completed` on conclusion
`success` and `failed` otherwise; a matched run with status
`in_progress` yields `building`; in every other case (a matched run in
any other state, or no matching run, i.e. workflow status `unknown`)
the final status is the stored record's `status` field, defaulting to
`queued` when absent.  The hypothesis `hs` restricts to records whose
`status` attribute, when present, is not the empty string — the only
values a `BuildRecord` can carry per the data model. -/
theorem status_reconciliation_rule (env : StatusEnv) (w : StatusWorld)
    (event : StatusEvent) (bid : String) (record : BuildRecord) (body : StatusBody)
    (hm : event.httpMethod = "GET")
    (hb : extractBuildId event.path = some bid)
    (hr : lookupRecord env w bid = some record)
    (hs : record.status ≠ some "")
    (hout : buildStatusOutcome env w event = .success body) :
    body.status =
      match matchedRun env w bid with
      | some run =>
        if run.status = "completed" then
          if run.conclusion = some "success" then "completed" else "failed"
        else if run.status = "in_progress" then "building"
        else record.status.getD "queued"
      | none => record.status.getD "queued" := by
  have hcode : body.status =
      (if (workflowInfo env w bid).1 == "completed" then
        if (workflowInfo env w bid).2.1 == some "success" then "completed" else "failed"
      else if (workflowInfo env w bid).1 == "in_progress" then "building"
      else jsOrD record.status "queued") := by
    simp only [buildStatusOutcome, buildStatusRun, hm, hb] at hout
    norm_num at hout
    simp only [statusCore, hr] at hout
    injection hout with hbody
    subst hbody
    rfl
  have hq : jsOrD record.status "queued" = record.status.getD "queued" :=
    jsOrD_eq_getD _ _ hs
  rw [hcode]
  cases hmr : matchedRun env w bid with
  | none => simp [workflowInfo, hmr, hq]
  | some run => simp [workflowInfo, hmr, hq, beq_iff_eq]

/-- Witness for C1 at a concrete completed-successful run. -/
theorem status_reconciliation_rule_witness :
    statusBodyEx.status =
      match matchedRun statusEnvEx statusWorldEx "abc" with
      | some run =>
        if run.status = "completed" then
          if run.conclusion = some "success" then "completed" else "failed"
        else if run.status = "in_progress" then "building"
        else recordEx.status.getD "queued"
      | none => recordEx.status.getD "queued" :=
  status_reconciliation_rule statusEnvEx statusWorldEx statusEventEx "abc"
    recordEx statusBodyEx rfl (by decide) rfl (by decide) rfl

/-! ## C2 -/

/-- C2: when the record lookup yields nothing — the store returned no
item, the store call threw, or no store is configured — the status
handler answers 404 "Build not found", for every possible state of the
CI provider; in particular replacing the workflow-run listing by any
other listing (for example one containing a matching run) leaves the
404 unchanged, so there is no fallback to the CI provider. -/
theorem status_missing_record_404 (env : StatusEnv) (w : StatusWorld)
    (event : StatusEvent) (bid : String)
    (hm : event.httpMethod = "GET")
    (hb : extractBuildId event.path = some bid)
    (hr : lookupRecord env w bid = none) :
    buildStatusOutcome env w event = .error 404 "Build not found" ∧
    ∀ runs, buildStatusOutcome env { w with listWorkflowRuns := runs } event =
      .error 404 "Build not found" := by
  have key : ∀ w' : StatusWorld, w'.dbGet = w.dbGet →
      buildStatusOutcome env w' event = .error 404 "Build not found" := by
    intro w' hw
    have hr' : lookupRecord env w' bid = none := by
      simp only [lookupRecord, hw]
      exact hr
    simp only [buildStatusOutcome, buildStatusRun, hm, hb]
    norm_num
    simp [statusCore, hr']
  exact ⟨key w rfl, fun runs => key _ rfl⟩

/-- Witness for C2: an empty store with a matching workflow run
present externally. -/
theorem status_missing_record_404_witness :
    buildStatusOutcome statusEnvEx statusWorldNoRecord statusEventEx =
      .error 404 "Build not found" ∧
    ∀ runs,
      buildStatusOutcome statusEnvEx { statusWorldNoRecord with listWorkflowRuns := runs }
        statusEventEx = .error 404 "Build not found" :=
  status_missing_record_404 statusEnvEx statusWorldNoRecord statusEventEx "abc"
    rfl (by decide) rfl

/-! ## C9 -/

/-- C9: the status reconciler never mutates the stored record — every
DynamoDB operation it performs is a read, and replaying its operations
against any store snapshot leaves the snapshot unchanged, so a
reported status differing from the stored one exists only in the
derived response. -/
theorem status_reconciler_readonly (env : StatusEnv) (w : StatusWorld)
    (event : StatusEvent) (store : String → Option BuildRecord) :
    ((buildStatusRun env w event).2.all StoreOp.isGet = true) ∧
    applyOps (buildStatusRun env w event).2 store = store := by
  have hall : (buildStatusRun env w event).2.all StoreOp.isGet = true := by
    unfold buildStatusRun
    repeat' split
    · rfl
    · rfl
    · rfl
    · rw [statusCore_snd]
      unfold statusLookupOps
      split <;> rfl
  exact ⟨hall, applyOps_of_reads _ _ hall⟩

/-! ## C10 -/

/-- The last non-empty `/`-separated segment of a path, as the claim
for the buildId extraction reads. -/
def lastNonEmptySegment (path : String) : Option String :=
  (((jsSplit (fun c => c == '/') path.toList).map
    (fun l => String.mk l)).filter (fun s => !s.isEmpty)).getLast?

/-- The handler's extraction is exactly the last non-empty segment. -/
lemma extractBuildId_eq_lastNonEmptySegment (p : String) :
    extractBuildId p = lastNonEmptySegment p := by
  unfold extractBuildId lastNonEmptySegment
  congr 1
  apply List.filter_congr
  intro s _
  by_cases h : s = ""
  · subst h; rfl
  · have h1 : (s != "") = true := by simpa using h
    have h2 : s.isEmpty = false := by
      cases hb : s.isEmpty with
      | false => rfl
      | true => exact absurd ((String.isEmpty_iff s).mp hb) h
    rw [h1, h2]
    rfl

/-- C10: for every GET status request, the 400 "Build ID required"
branch is taken exactly when the request path has no non-empty
`/`-separated segment; and whenever a last non-empty segment exists,
the rest of the handler is run with that segment as the buildId — so
that segment (and nothing preceding it) is the key of the record
lookup and of the `build/{buildId}` branch match performed by
`statusCore`. -/
theorem status_buildId_extraction (env : StatusEnv) (w : StatusWorld)
    (event : StatusEvent)
    (hm : event.httpMethod = "GET") :
    (buildStatusOutcome env w event = .error 400 "Build ID required" ↔
      lastNonEmptySegment event.path = none) ∧
    (∀ bid, lastNonEmptySegment event.path = some bid →
      buildStatusRun env w event = statusCore env w bid) := by
  have hreduce : buildStatusRun env w event =
      match extractBuildId event.path with
      | none => (.error 400 "Build ID required", [])
      | some bid => statusCore env w bid := by
    unfold buildStatusRun
    rw [hm]
    simp
  constructor
  · constructor
    · intro h
      cases hseg : extractBuildId event.path with
      | none => rw [← extractBuildId_eq_lastNonEmptySegment]; exact hseg
      | some bid =>
        exfalso
        rw [buildStatusOutcome, hreduce, hseg] at h
        exact statusCore_ne_badRequest env w bid h
    · intro h
      have hseg : extractBuildId event.path = none := by
        rw [extractBuildId_eq_lastNonEmptySegment]; exact h
      rw [buildStatusOutcome, hreduce, hseg]
  · intro bid h
    have hseg : extractBuildId event.path = some bid := by
      rw [extractBuildId_eq_lastNonEmptySegment]; exact h
    rw [hreduce, hseg]

/-- Witness for C10 at a concrete GET request. -/
theorem status_buildId_extraction_witness :
    (buildStatusOutcome statusEnvEx statusWorldEx statusEventEx =
        .error 400 "Build ID required" ↔
      lastNonEmptySegment statusEventEx.path = none) ∧
    (∀ bid, lastNonEmptySegment statusEventEx.path = some bid →
      buildStatusRun statusEnvEx statusWorldEx statusEventEx =
        statusCore statusEnvEx statusWorldEx bid) :=
  status_buildId_extraction statusEnvEx statusWorldEx statusEventEx rfl

/-! ## C3 -/

/-- A build-handler environment with store and repository configured. -/
def buildEnvEx : BuildEnv :=
  { awsDynamodbTable := some "builds"
    githubOrg := some "acme"
    githubRepo := some "site"
    serviceUrl := some "https://svc.example" }

/-- A build-handler world in which every external call succeeds and
the content file does not yet exist on the branch. -/
def buildWorldEx : BuildWorld :=
  { uuid := "uuid-1"
    now := "2026-01-01T00:00:00Z"
    dbPut := .ok ()
    getRef := .ok "0a1b2c3d"
    createRef := .ok ()
    getContent := .error "Not Found"
    putFile := fun _ => .ok ()
    dispatchWorkflow := .ok () }

/-- The same world with a different fresh uuid. -/
def buildWorldEx2 : BuildWorld :=
  { buildWorldEx with uuid := "uuid-2" }

/-- A well-formed build request. -/
def buildReqEx : BuildRequest :=
  { markdown := some "# doc", projectId := some "proj" }

/-- A POST build dispatch carrying `buildReqEx`. -/
def buildEventEx : BuildEvent :=
  { httpMethod := "POST", body := some buildReqEx, host := some "svc.example" }

/-- The 202 body produced for `buildEventEx` against `buildEnvEx` and
`buildWorldEx`. -/
def buildBodyEx : BuildResponseBody :=
  { status := "queued"
    buildId := "uuid-1"
    projectId := "proj"
    branchName := "build/uuid-1"
    filePath := "content/proj/index.md"
    estimatedTime := 5
    pollingUrl := "https://svc.example/api/build/uuid-1/status"
    title := "Untitled"
    slug := "index"
    createdAt := "2026-01-01T00:00:00Z" }

/-- The 202 body produced against `buildWorldEx2`. -/
def buildBodyEx2 : BuildResponseBody :=
  { buildBodyEx with
    buildId := "uuid-2"
    branchName := "build/uuid-2"
    pollingUrl := "https://svc.example/api/build/uuid-2/status" }

/-- C3: when the required repository steps succeed — ref resolution
(`href`), branch creation (`hcr`) and the file commit (`hput`, called
with the sha of the pre-existing file if the existence check found
one) — the dispatcher responds 202 with status `queued`, a buildId and
the branch name `build/{buildId}`, and the response is the same
whatever the outcomes of the best-effort record write and of the
explicit workflow dispatch: those two failures are swallowed. -/
theorem build_dispatch_optional_failures_swallowed (env : BuildEnv)
    (w : BuildWorld) (event : BuildEvent) (req : BuildRequest) (sha : String)
    (hm : event.httpMethod = "POST")
    (hb : event.body = some req)
    (hmd : jsTruthy req.markdown = true)
    (hpid : jsTruthy req.projectId = true)
    (hcfg : (jsTruthy (jsOr env.githubOrg env.githubOwner) &&
      jsTruthy env.githubRepo) = true)
    (href : w.getRef = .ok sha)
    (hcr : w.createRef = .ok ())
    (hput : w.putFile
      (match w.getContent with
        | .ok s => some s
        | .error _ => none) = .ok ()) :
    ∃ body, buildHandler env w event = .accepted body ∧
      body.status = "queued" ∧
      body.buildId = w.uuid ∧
      body.branchName = "build/" ++ w.uuid ∧
      ∀ dbRes dispRes,
        buildHandler env { w with dbPut := dbRes, dispatchWorkflow := dispRes }
          event = .accepted body := by
  refine ⟨{ status := "queued"
            buildId := w.uuid
            projectId := req.projectId.getD ""
            branchName := "build/" ++ w.uuid
            filePath := "content/" ++ req.projectId.getD "" ++ "/" ++
              jsOrD (req.metadata.bind BuildMeta.slug) "index" ++ ".md"
            estimatedTime := 5
            pollingUrl := jsOrD env.serviceUrl ("https://" ++ optStr event.host) ++
              "/api/build/" ++ w.uuid ++ "/status"
            title := jsOrD (req.metadata.bind BuildMeta.title) "Untitled"
            slug := jsOrD (req.metadata.bind BuildMeta.slug) "index"
            createdAt := w.now }, ?_, rfl, rfl, rfl, ?_⟩
  · simp only [buildHandler, hm, hb, hmd, hpid, hcfg, href, hcr, hput]
    simp
  · intro dbRes dispRes
    simp only [buildHandler, hm, hb, hmd, hpid, hcfg]
    show (if ("POST" == "OPTIONS") = true then BuildOutcome.preflight else _) = _
    simp only [href, hcr, hput]
    simp

/-- Witness for C3 at a concrete all-successful dispatch. -/
theorem build_dispatch_optional_failures_swallowed_witness :
    ∃ body, buildHandler buildEnvEx buildWorldEx buildEventEx = .accepted body ∧
      body.status = "queued" ∧
      body.buildId = buildWorldEx.uuid ∧
      body.branchName = "build/" ++ buildWorldEx.uuid ∧
      ∀ dbRes dispRes,
        buildHandler buildEnvEx
          { buildWorldEx with dbPut := dbRes, dispatchWorkflow := dispRes }
          buildEventEx = .accepted body :=
  build_dispatch_optional_failures_swallowed buildEnvEx buildWorldEx
    buildEventEx buildReqEx "0a1b2c3d" rfl rfl rfl rfl rfl rfl rfl rfl

/-! ## C8 -/

/-- Every accepted build response carries the freshly generated uuid as
its buildId and the branch name derived from it. -/
lemma buildHandler_accepted_ids (env : BuildEnv) (w : BuildWorld)
    (event : BuildEvent) (b : BuildResponseBody)
    (h : buildHandler env w event = .accepted b) :
    b.buildId = w.uuid ∧ b.branchName = "build/" ++ w.uuid := by
  simp only [buildHandler] at h
  repeat' split at h
  all_goals first
    | exact BuildOutcome.noConfusion h
    | (injection h with hb; subst hb; exact ⟨rfl, rfl⟩)

/-- C8: two build dispatches whose generated uuids differ (the
contract of `uuidv4`) produce responses with distinct buildIds and
distinct branch names, and in each response the branch name is exactly
`build/` followed by that response's buildId — so distinct buildIds
force distinct branch names. -/
theorem build_dispatch_distinct_ids (env1 env2 : BuildEnv)
    (w1 w2 : BuildWorld) (ev1 ev2 : BuildEvent) (b1 b2 : BuildResponseBody)
    (h1 : buildHandler env1 w1 ev1 = .accepted b1)
    (h2 : buildHandler env2 w2 ev2 = .accepted b2)
    (hu : w1.uuid ≠ w2.uuid) :
    b1.buildId ≠ b2.buildId ∧ b1.branchName ≠ b2.branchName ∧
    b1.branchName = "build/" ++ b1.buildId ∧
    b2.branchName = "build/" ++ b2.buildId := by
  obtain ⟨hid1, hbr1⟩ := buildHandler_accepted_ids env1 w1 ev1 b1 h1
  obtain ⟨hid2, hbr2⟩ := buildHandler_accepted_ids env2 w2 ev2 b2 h2
  refine ⟨?_, ?_, ?_, ?_⟩
  · rw [hid1, hid2]; exact hu
  · rw [hbr1, hbr2]
    intro h
    exact hu (string_append_cancel h)
  · rw [hbr1, hid1]
  · rw [hbr2, hid2]

/-- Witness for C8: the same request dispatched against two worlds
with distinct fresh uuids. -/
theorem build_dispatch_distinct_ids_witness :
    buildBodyEx.buildId ≠ buildBodyEx2.buildId ∧
    buildBodyEx.branchName ≠ buildBodyEx2.branchName ∧
    buildBodyEx.branchName = "build/" ++ buildBodyEx.buildId ∧
    buildBodyEx2.branchName = "build/" ++ buildBodyEx2.buildId :=
  build_dispatch_distinct_ids buildEnvEx buildEnvEx buildWorldEx buildWorldEx2
    buildEventEx buildEventEx buildBodyEx buildBodyEx2 rfl rfl (by decide)

/-! ## C4 -/

/-- The word count reported by an outcome, when it is a 200. -/
def ValidateOutcome.wordCountOf : ValidateOutcome → Option Nat
  | .valid b => some b.metadata.wordCount
  | _ => none

/-- The example document of the spec (§8, last bullet). -/
def exampleMarkdown : String :=
  "---\ntitle: T\ncategory: example\nlayout: content.njk\n---\n# Hi"

/-- The frontmatter gray-matter parses out of `exampleMarkdown`. -/
def exampleFm : Fm :=
  [("title", "T"), ("category", "example"), ("layout", "content.njk")]

/-- gray-matter on the example document: the metadata block parses,
and the content is what follows the closing `---` delimiter.
(gray-matter documents that the newline after the closing delimiter is
kept: `matter('---\ntitle: x\n---\nbody').content` is `'\nbody'`;
either way the content holds the two whitespace-separated tokens `#`
and `Hi`.) -/
def exampleMatter : String → Except String (Fm × String) := fun s =>
  if s = exampleMarkdown then .ok (exampleFm, "\n# Hi")
  else .error "unexpected document"

/-- A validator world for the example document; no schema is involved,
and markdown-it rendering is an arbitrary stand-in. -/
def validateWorldEx : ValidateWorld :=
  { matter := exampleMatter
    fetchSchema := fun _ => .error "fetch failed"
    compile := fun _ => .error "schema compile failed"
    render := fun s => s }

/-- The §8 example request: the example document, no `schemaUrl`. -/
def validateEventEx : ValidateEvent :=
  { httpMethod := "POST"
    body := some { markdown := some exampleMarkdown, schemaUrl := none } }

/-- Counterexample to C4: on the example input the validator does
return 200, but `metadata.wordCount` is `2` (the body `# Hi` splits
into the two tokens `#` and `Hi`), not `1` as claimed. -/
theorem validate_example_wordCount_ne_one :
    (validateHandler validateWorldEx validateEventEx).statusCode = 200 ∧
    (validateHandler validateWorldEx validateEventEx).wordCountOf = some 2 ∧
    (validateHandler validateWorldEx validateEventEx).wordCountOf ≠ some 1 :=
  ⟨rfl, rfl, by decide⟩

/-- C4 as amended: on the example input the validator returns 200 with
`metadata.wordCount = 2`. -/
theorem validate_example_wordCount_two :
    (validateHandler validateWorldEx validateEventEx).statusCode = 200 ∧
    (validateHandler validateWorldEx validateEventEx).wordCountOf = some 2 :=
  ⟨rfl, rfl⟩

/-! ## C5 -/

/-- `Math.ceil(a / 200)` on a natural number is the ceiling of the
rational `a / 200`. -/
lemma mathCeilDiv_eq_ceil (a : ℕ) :
    mathCeilDiv a 200 = ⌈(a : ℚ) / 200⌉₊ := by
  rcases Nat.eq_zero_or_pos a with ha | ha
  · subst ha
    norm_num [mathCeilDiv]
  · have hn : mathCeilDiv a 200 ≠ 0 := by unfold mathCeilDiv; omega
    symm
    rw [Nat.ceil_eq_iff hn]
    have h200 : (0 : ℚ) < 200 := by norm_num
    constructor
    · rw [lt_div_iff₀ h200]
      have h1 : (mathCeilDiv a 200 - 1) * 200 < a := by unfold mathCeilDiv; omega
      exact_mod_cast h1
    · rw [div_le_iff₀ h200]
      have h2 : a ≤ mathCeilDiv a 200 * 200 := by unfold mathCeilDiv; omega
      exact_mod_cast h2

/-- C5: every 200 response of the validator reports
`metadata.wordCount` equal to the number of non-empty
whitespace-delimited tokens of the returned body content, and
`metadata.readingTime` equal to that word count divided by 200 and
rounded up to a whole minute. -/
theorem validate_metrics (w : ValidateWorld) (event : ValidateEvent)
    (b : ValidBody)
    (h : validateHandler w event = .valid b) :
    b.metadata.wordCount = (wordTokens b.content).length ∧
    b.metadata.readingTime = ⌈(b.metadata.wordCount : ℚ) / 200⌉₊ := by
  simp only [validateHandler, validSuccess] at h
  repeat' split at h
  all_goals first
    | exact ValidateOutcome.noConfusion h
    | (injection h with hb; subst hb; exact ⟨rfl, mathCeilDiv_eq_ceil _⟩)

/-- The 200 body produced for the example document. -/
def exampleValidBody : ValidBody :=
  { frontmatter := exampleFm
    content := "\n# Hi"
    preview := "\n# Hi"
    metadata := {
      wordCount := 2
      readingTime := 1
      contentLength := 5
      hasImages := false
      hasCode := false } }

/-- Witness for C5 on the example document. -/
theorem validate_metrics_witness :
    exampleValidBody.metadata.wordCount =
      (wordTokens exampleValidBody.content).length ∧
    exampleValidBody.metadata.readingTime =
      ⌈(exampleValidBody.metadata.wordCount : ℚ) / 200⌉₊ :=
  validate_metrics validateWorldEx validateEventEx exampleValidBody rfl

/-! ## C6 -/

/-- A required-property violation with no instance path. -/
def ajvErrEx1 : AjvError :=
  { instancePath := ""
    schemaPath := "#/required"
    message := "must have required property title"
    keyword := "required"
    params := [("missingProperty", "title")] }

/-- An enum violation at field path `/category`. -/
def ajvErrEx2 : AjvError :=
  { instancePath := "/category"
    schemaPath := "#/properties/category/enum"
    message := "must be equal to one of the allowed values"
    keyword := "enum"
    params := [("allowedValues", "example")] }

/-- A validator world in which matter parses, the schema fetch and
compile succeed, and validation reports exactly two violations. -/
def schemaWorldEx : ValidateWorld :=
  { matter := fun _ => .ok ([], "body")
    fetchSchema := fun _ => .ok "frontmatter-schema"
    compile := fun _ => .ok (fun _ => some [ajvErrEx1, ajvErrEx2])
    render := fun s => s }

/-- A request supplying a `schemaUrl`. -/
def schemaEventEx : ValidateEvent :=
  { httpMethod := "POST"
    body := some { markdown := some "---\n---\nbody"
                   schemaUrl := some "https://schemas.example/post.json" } }

/-- C6: when schema validation fails, the 422 response carries exactly
one `errors[]` entry per violation reported by ajv — the whole list,
in order, none dropped — and each entry carries the violation's
instance path (or its schema path when the instance path is empty),
its message, its keyword and that keyword's parameters. -/
theorem validate_schema_errors_all_surfaced (w : ValidateWorld)
    (event : ValidateEvent) (req : ValidateRequest) (schema : String)
    (fm : Fm) (content : String) (vf : Fm → Option (List AjvError))
    (errs : List AjvError)
    (hm : event.httpMethod = "POST")
    (hb : event.body = some req)
    (hmd : jsTruthy req.markdown = true)
    (hmat : w.matter (req.markdown.getD "") = .ok (fm, content))
    (hurl : jsTruthy req.schemaUrl = true)
    (hfetch : w.fetchSchema (req.schemaUrl.getD "") = .ok schema)
    (hcomp : w.compile schema = .ok vf)
    (hval : vf fm = some errs) :
    validateHandler w event = .schemaInvalid (errs.map mapAjvError) ∧
    (validateHandler w event).statusCode = 422 ∧
    (errs.map mapAjvError).length = errs.length ∧
    ∀ e ∈ errs, mapAjvError e =
      { path := if e.instancePath ≠ "" then e.instancePath else e.schemaPath
        message := e.message
        keyword := e.keyword
        params := e.params } := by
  have hmain : validateHandler w event = .schemaInvalid (errs.map mapAjvError) := by
    simp only [validateHandler, hm, hb, hmd, hmat, hurl, hfetch, hcomp, hval]
    simp
  refine ⟨hmain, by rw [hmain]; rfl, by simp, ?_⟩
  intro e _
  by_cases hip : e.instancePath = ""
  · simp [mapAjvError, hip]
  · simp [mapAjvError, hip]

/-- Witness for C6 with two concrete violations (a missing required
field and an enum violation). -/
theorem validate_schema_errors_all_surfaced_witness :
    validateHandler schemaWorldEx schemaEventEx =
      .schemaInvalid ([ajvErrEx1, ajvErrEx2].map mapAjvError) ∧
    (validateHandler schemaWorldEx schemaEventEx).statusCode = 422 ∧
    ([ajvErrEx1, ajvErrEx2].map mapAjvError).length =
      [ajvErrEx1, ajvErrEx2].length ∧
    ∀ e ∈ [ajvErrEx1, ajvErrEx2], mapAjvError e =
      { path := if e.instancePath ≠ "" then e.instancePath else e.schemaPath
        message := e.message
        keyword := e.keyword
        params := e.params } :=
  validate_schema_errors_all_surfaced schemaWorldEx schemaEventEx
    { markdown := some "---\n---\nbody"
      schemaUrl := some "https://schemas.example/post.json" }
    "frontmatter-schema" [] "body" (fun _ => some [ajvErrEx1, ajvErrEx2])
    [ajvErrEx1, ajvErrEx2] rfl rfl rfl rfl rfl rfl rfl rfl

/-! ## C7 -/

/-- C7: whenever the metadata block fails to parse, the validator
answers 422 with the single frontmatter-syntax error carrying the
original parse error message — whatever the (unconstrained)
`schemaUrl` of the request — and replacing the schema-fetch behaviour
of the world by any other leaves the response unchanged: the schema is
never fetched on this path. -/
theorem validate_frontmatter_syntax_terminal (w : ValidateWorld)
    (event : ValidateEvent) (req : ValidateRequest) (msg : String)
    (hm : event.httpMethod = "POST")
    (hb : event.body = some req)
    (hmd : jsTruthy req.markdown = true)
    (hmat : w.matter (req.markdown.getD "") = .error msg) :
    validateHandler w event =
      .frontmatterSyntax
        { path := "frontmatter"
          message := "Invalid YAML frontmatter syntax"
          line := 1
          details := msg } ∧
    (validateHandler w event).statusCode = 422 ∧
    ∀ fetch, validateHandler { w with fetchSchema := fetch } event =
      validateHandler w event := by
  have key : ∀ w' : ValidateWorld, w'.matter = w.matter →
      validateHandler w' event =
        .frontmatterSyntax
          { path := "frontmatter"
            message := "Invalid YAML frontmatter syntax"
            line := 1
            details := msg } := by
    intro w' hw
    simp only [validateHandler, hm, hb, hmd, hw, hmat]
    simp
  exact ⟨key w rfl, by rw [key w rfl]; rfl, fun fetch => (key { w with fetchSchema := fetch } rfl).trans (key w rfl).symm⟩

/-- A validator world whose matter parse throws. -/
def badYamlWorldEx : ValidateWorld :=
  { matter := fun _ => .error "bad indentation of a mapping entry at line 2, column 1"
    fetchSchema := fun _ => .ok "frontmatter-schema"
    compile := fun _ => .error "unused"
    render := fun s => s }

/-- A request with malformed metadata and a `schemaUrl` supplied. -/
def badYamlEventEx : ValidateEvent :=
  { httpMethod := "POST"
    body := some { markdown := some "---\ntitle: T\n  bad\n---\nbody"
                   schemaUrl := some "https://schemas.example/post.json" } }

/-- Witness for C7: malformed metadata with a schemaUrl present. -/
theorem validate_frontmatter_syntax_terminal_witness :
    validateHandler badYamlWorldEx badYamlEventEx =
      .frontmatterSyntax
        { path := "frontmatter"
          message := "Invalid YAML frontmatter syntax"
          line := 1
          details := "bad indentation of a mapping entry at line 2, column 1" } ∧
    (validateHandler badYamlWorldEx badYamlEventEx).statusCode = 422 ∧
    ∀ fetch, validateHandler { badYamlWorldEx with fetchSchema := fetch }
      badYamlEventEx = validateHandler badYamlWorldEx badYamlEventEx :=
  validate_frontmatter_syntax_terminal badYamlWorldEx badYamlEventEx
    { markdown := some "---\ntitle: T\n  bad\n---\nbody"
      schemaUrl := some "https://schemas.example/post.json" }
    "bad indentation of a mapping entry at line 2, column 1" rfl rfl rfl rfl

end Twelvety
